import Mathlib

set_option maxRecDepth 8000

/-!
Verification of the data-access layer of the home-away property-rental
application (src/utils/actions.ts, src/prisma/schema.prisma,
src/components/card/CountryFlagAndName.tsx).

The server actions are shallowly embedded as pure functions over an explicit
`World` state: the relational store (`DB`, three relations mirroring the
Prisma schema), the identity store metadata flags, the record of object
storage upload calls, and the record of invalidated cache paths.

An action invocation is given the current request identity (`Option User`,
what the identity provider resolves) and its arguments, and returns an
`ActionOutcome` together with the resulting `World`.  `ActionOutcome.thrown`
models an exception that escapes the action uncaught; `ActionOutcome.message`
models the returned uniform message object; `ActionOutcome.redirect` models
a navigation transfer; `ActionOutcome.value` models a typed data payload.

Storage-assigned timestamps (createdAt / updatedAt) are not modelled: no
action reads them.  Row ids are drawn from a counter in `World`.

Code of the repository that §src does not contain (src/utils/schemas.ts,
src/utils/helpers.ts, src/utils/supabase.ts, src/utils/countries.ts) is
modelled from the specification; each such definition carries a doc comment
starting with "Modelled from the spec:".
-/

namespace HomeAway

/-- The authenticated user as supplied by the identity provider: subject id,
primary email address, avatar url (possibly absent), and the private
metadata onboarding flag `hasProfile`. -/
structure User where
  id : String
  email : String
  imageUrl : Option String
  hasProfile : Bool
deriving DecidableEq

/-- Row of the `Profile` relation (schema.prisma, model Profile). -/
structure Profile where
  id : String
  clerkId : String
  firstName : String
  lastName : String
  username : String
  email : String
  profileImage : String
deriving DecidableEq

/-- Row of the `Property` relation (schema.prisma, model Property). -/
structure Property where
  id : String
  name : String
  tagline : String
  category : String
  image : String
  country : String
  description : String
  price : Int
  guests : Int
  bedrooms : Int
  beds : Int
  baths : Int
  amenities : String
  profileId : String
deriving DecidableEq

/-- Row of the `Favorite` relation (schema.prisma, model Favorite).  Note:
the schema declares `id` as the only unique column; there is no composite
uniqueness constraint on (profileId, propertyId). -/
structure Favorite where
  id : String
  profileId : String
  propertyId : String
deriving DecidableEq

/-- The relational store: the three relations of schema.prisma. -/
structure DB where
  profiles : List Profile
  properties : List Property
  favorites : List Favorite
deriving DecidableEq

/-- An image file as submitted through a form. -/
structure ImageFile where
  name : String
  size : Nat
  mime : String
deriving DecidableEq

/-- Full mutable state visible to an action: the relational store, the
identity store's per-user onboarding flags, the record of object storage
upload calls, the record of cache paths invalidated, and an id counter. -/
structure World where
  db : DB
  hasProfileFlags : List (String × Bool)
  uploads : List ImageFile
  revalidated : List String
  nextId : Nat
deriving DecidableEq

/-- Result of one action invocation. -/
inductive ActionOutcome (α : Type) where
  | value : α → ActionOutcome α
  | message : String → ActionOutcome α
  | redirect : String → ActionOutcome α
  | thrown : String → ActionOutcome α
deriving DecidableEq

/-- Discriminator: did the action end in an uncaught exception? -/
def ActionOutcome.isThrown {α : Type} : ActionOutcome α → Bool
  | .thrown _ => true
  | _ => false

/-- Discriminator: did the action return the uniform message object? -/
def ActionOutcome.isMessage {α : Type} : ActionOutcome α → Bool
  | .message _ => true
  | _ => false

/-- Discriminator: did the action end in a redirect? -/
def ActionOutcome.isRedirect {α : Type} : ActionOutcome α → Bool
  | .redirect _ => true
  | _ => false

/-- A control transfer raised inside an action body: a thrown error or a
framework redirect. -/
inductive Failure where
  | thrown : String → Failure
  | redirect : String → Failure
deriving DecidableEq

/-- actions.ts `getAuthUser`: returns the current user, throws when none is
resolved, and redirects to onboarding when the user's metadata flag
`hasProfile` is unset. -/
def getAuthUser (currentUser : Option User) : Except Failure User :=
  match currentUser with
  | none => .error (.thrown "You must be logged in to access this route")
  | some user =>
    if !user.hasProfile then .error (.redirect "/profile/create")
    else .ok user

/-- The profile form fields validated by the profile schema. -/
structure ProfileFields where
  firstName : String
  lastName : String
  username : String
  email : String
deriving DecidableEq

/-- Modelled from the spec: `profileSchema` together with
`validateWithZodSchema` (src/utils/schemas.ts is not in the tree).  Per
§4.1 the profile fields are names, username and email under non-empty
string constraints, and the first violated constraint's message is
surfaced as the failure. -/
def validateProfile (raw : ProfileFields) : Except String ProfileFields :=
  if raw.firstName = "" then .error "firstName must not be empty"
  else if raw.lastName = "" then .error "lastName must not be empty"
  else if raw.username = "" then .error "username must not be empty"
  else if raw.email = "" then .error "email must not be empty"
  else .ok raw

/-- Modelled from the spec: the configured image size ceiling
(src/utils/schemas.ts is not in the tree); the concrete value is not
recorded in the spec, one megabyte is used. -/
def maxImageSize : Nat := 1024 * 1024

/-- Modelled from the spec: the MIME-type allow-list of the image schema
(src/utils/schemas.ts is not in the tree). -/
def allowedImageTypes : List String := ["image/jpeg", "image/png", "image/webp"]

/-- Modelled from the spec: `imageSchema` together with
`validateWithZodSchema` (src/utils/schemas.ts is not in the tree).  Per
§4.1 it checks file presence, a size ceiling and a MIME-type allow-list,
surfacing the first violated constraint's message. -/
def validateImage (img : ImageFile) : Except String ImageFile :=
  if img.size > maxImageSize then .error "File size must be less than 1MB"
  else if !(allowedImageTypes.contains img.mime) then
    .error "File must have a valid image type"
  else .ok img

/-- The property form fields validated by the property schema (without the
image file, which is validated separately). -/
structure PropertyFields where
  name : String
  tagline : String
  category : String
  country : String
  description : String
  price : Int
  guests : Int
  bedrooms : Int
  beds : Int
  baths : Int
  amenities : String
deriving DecidableEq

/-- Modelled from the spec: `propertySchema` together with
`validateWithZodSchema` (src/utils/schemas.ts is not in the tree).  Per
§4.1 the descriptive fields carry non-empty string constraints and the
numeric fields carry range constraints; the first violated constraint's
message is surfaced. -/
def validateProperty (raw : PropertyFields) : Except String PropertyFields :=
  if raw.name = "" then .error "name must not be empty"
  else if raw.tagline = "" then .error "tagline must not be empty"
  else if raw.category = "" then .error "category must not be empty"
  else if raw.country = "" then .error "country must not be empty"
  else if raw.description = "" then .error "description must not be empty"
  else if raw.price < 0 then .error "price must be a positive number"
  else if raw.guests < 1 then .error "guests amount must be at least 1"
  else if raw.bedrooms < 1 then .error "bedrooms amount must be at least 1"
  else if raw.beds < 1 then .error "beds amount must be at least 1"
  else if raw.baths < 1 then .error "baths amount must be at least 1"
  else .ok raw

/-- Modelled from the spec: `renderError` (src/utils/helpers.ts is not in
the tree) translates a thrown error into the uniform message result for
caller display (§7). -/
def renderError {α : Type} (e : String) : ActionOutcome α :=
  ActionOutcome.message e

/-- Modelled from the spec: `uploadImage` (src/utils/supabase.ts is not in
the tree) sends the image payload to the external object store and returns
a publicly addressable path (§6).  The world records every upload call. -/
def uploadImage (w : World) (img : ImageFile) : String × World :=
  ("storage/" ++ img.name, { w with uploads := w.uploads ++ [img] })

/-- `clerkClient.users.updateUserMetadata`: sets the per-user onboarding
flag in the external identity store. -/
def updateUserMetadata (w : World) (userId : String) (flag : Bool) : World :=
  { w with hasProfileFlags :=
      (userId, flag) :: w.hasProfileFlags.filter (fun kv => kv.1 != userId) }

/-- Reads the per-user onboarding flag from the external identity store. -/
def getProfileFlag (w : World) (userId : String) : Bool :=
  ((w.hasProfileFlags.find? (fun kv => kv.1 == userId)).map Prod.snd).getD false

/-- `revalidatePath`: records the invalidation of a cached path. -/
def revalidatePath (w : World) (p : String) : World :=
  { w with revalidated := p :: w.revalidated }

/-- Fresh row id generation (Prisma `@default(uuid())`). -/
def freshId (w : World) : String :=
  "id-" ++ toString w.nextId

/-- `db.profile.findUnique` on the unique column clerkId. -/
def profileFindUnique (db : DB) (clerkId : String) : Option Profile :=
  db.profiles.find? (fun p => p.clerkId == clerkId)

/-- `db.profile.create`: inserts a profile row; the unique constraint on
clerkId makes the insert throw when a row with that clerkId exists. -/
def profileCreate (db : DB) (p : Profile) : Except String DB :=
  if db.profiles.any (fun q => q.clerkId == p.clerkId) then
    .error "Unique constraint failed on the fields: (clerkId)"
  else .ok { db with profiles := db.profiles ++ [p] }

/-- `db.profile.update` of the profile form fields, keyed by clerkId;
throws when no row matches. -/
def profileUpdate (db : DB) (clerkId : String) (vf : ProfileFields) :
    Except String DB :=
  if db.profiles.any (fun p => p.clerkId == clerkId) then
    .ok { db with profiles := db.profiles.map (fun p =>
      if p.clerkId == clerkId then
        { p with firstName := vf.firstName, lastName := vf.lastName,
                 username := vf.username, email := vf.email }
      else p) }
  else .error "Record to update not found."

/-- `db.profile.update` of the profileImage column, keyed by clerkId;
throws when no row matches. -/
def profileUpdateImage (db : DB) (clerkId : String) (path : String) :
    Except String DB :=
  if db.profiles.any (fun p => p.clerkId == clerkId) then
    .ok { db with profiles := db.profiles.map (fun p =>
      if p.clerkId == clerkId then { p with profileImage := path } else p) }
  else .error "Record to update not found."

/-- `db.property.create`: inserts a property row; the foreign key from
profileId to Profile.clerkId makes the insert throw when no such profile
exists. -/
def propertyCreate (db : DB) (p : Property) : Except String DB :=
  if db.profiles.any (fun q => q.clerkId == p.profileId) then
    .ok { db with properties := db.properties ++ [p] }
  else .error "Foreign key constraint failed on the field: (profileId)"

/-- `db.favorite.findFirst` on propertyId and profileId (the where clause
of fetchFavoriteId). -/
def favoriteFindFirst (db : DB) (propertyId profileId : String) :
    Option Favorite :=
  db.favorites.find? (fun f =>
    f.propertyId == propertyId && f.profileId == profileId)

/-- `db.favorite.create`: inserts a favorite row; the foreign keys from
profileId to Profile.clerkId and from propertyId to Property.id make the
insert throw when the referenced rows do not exist. -/
def favoriteCreate (db : DB) (f : Favorite) : Except String DB :=
  if db.profiles.any (fun q => q.clerkId == f.profileId) then
    if db.properties.any (fun p => p.id == f.propertyId) then
      .ok { db with favorites := db.favorites ++ [f] }
    else .error "Foreign key constraint failed on the field: (propertyId)"
  else .error "Foreign key constraint failed on the field: (profileId)"

/-- `db.favorite.delete` keyed by the id column alone; throws when no row
with that id exists. -/
def favoriteDelete (db : DB) (favoriteId : String) : Except String DB :=
  if db.favorites.any (fun f => f.id == favoriteId) then
    .ok { db with favorites := db.favorites.filter (fun f => f.id != favoriteId) }
  else .error "Record to delete does not exist."

/-- Number of Favorite rows held by one (profileId, propertyId) pair. -/
def favoritePairCount (db : DB) (profileId propertyId : String) : Nat :=
  (db.favorites.filter (fun f =>
    f.profileId == profileId && f.propertyId == propertyId)).length

/-- actions.ts `createProfileAction`: resolves the user inside its try
block (throwing "Please login to create a profile" when none), validates
the form, creates the profile row keyed by the user's id, sets the
onboarding flag, and redirects home; any error thrown inside the try block
is caught and rendered as a message.  Note the form's validated fields are
spread after the email taken from the identity, so the form email wins. -/
def createProfileAction (currentUser : Option User) (w : World)
    (raw : ProfileFields) : ActionOutcome Unit × World :=
  match currentUser with
  | none => (renderError "Please login to create a profile", w)
  | some user =>
    match validateProfile raw with
    | .error e => (renderError e, w)
    | .ok vf =>
      let profile : Profile :=
        { id := freshId w, clerkId := user.id,
          firstName := vf.firstName, lastName := vf.lastName,
          username := vf.username, email := vf.email,
          profileImage := user.imageUrl.getD "" }
      match profileCreate w.db profile with
      | .error e => (renderError e, w)
      | .ok db1 =>
        let w1 := updateUserMetadata
          { w with db := db1, nextId := w.nextId + 1 } user.id true
        (ActionOutcome.redirect "/", w1)

/-- actions.ts `fetchProfileImage`: resolves the user directly (not via
getAuthUser); returns null when none, otherwise the profileImage column of
the user's profile row (absent when there is no row).  No try block. -/
def fetchProfileImage (currentUser : Option User) (db : DB) :
    ActionOutcome (Option String) :=
  match currentUser with
  | none => .value none
  | some user =>
    .value ((profileFindUnique db user.id).map Profile.profileImage)

/-- actions.ts `fetchProfile`: resolves the user via getAuthUser (outside
any try block), redirects to onboarding when no profile row exists,
otherwise returns the full row. -/
def fetchProfile (currentUser : Option User) (db : DB) :
    ActionOutcome Profile :=
  match getAuthUser currentUser with
  | .error (.thrown m) => .thrown m
  | .error (.redirect p) => .redirect p
  | .ok user =>
    match profileFindUnique db user.id with
    | none => .redirect "/profile/create"
    | some profile => .value profile

/-- actions.ts `updateProfileAction`: getAuthUser runs before the try
block, so its failures propagate; inside the try block the form is
validated and the row updated, errors being rendered as messages. -/
def updateProfileAction (currentUser : Option User) (w : World)
    (raw : ProfileFields) : ActionOutcome Unit × World :=
  match getAuthUser currentUser with
  | .error (.thrown m) => (.thrown m, w)
  | .error (.redirect p) => (.redirect p, w)
  | .ok user =>
    match validateProfile raw with
    | .error e => (renderError e, w)
    | .ok vf =>
      match profileUpdate w.db user.id vf with
      | .error e => (renderError e, w)
      | .ok db1 =>
        (ActionOutcome.message "Profile updated successfully",
         revalidatePath { w with db := db1 } "/profile")

/-- actions.ts `updateProfileImageAction`: getAuthUser runs before the try
block; inside it the image is validated, uploaded, and the profileImage
column updated, errors being rendered as messages. -/
def updateProfileImageAction (currentUser : Option User) (w : World)
    (image : ImageFile) : ActionOutcome Unit × World :=
  match getAuthUser currentUser with
  | .error (.thrown m) => (.thrown m, w)
  | .error (.redirect p) => (.redirect p, w)
  | .ok user =>
    match validateImage image with
    | .error e => (renderError e, w)
    | .ok vimg =>
      let up := uploadImage w vimg
      match profileUpdateImage up.2.db user.id up.1 with
      | .error e => (renderError e, up.2)
      | .ok db1 =>
        (ActionOutcome.message "Profile image updated successfully",
         revalidatePath { up.2 with db := db1 } "/profile")

/-- actions.ts `createPropertyAction`: getAuthUser runs before the try
block; inside it the property fields are validated, then the image, the
image is uploaded, and the property row created with the caller's id as
owner; errors inside the try block are rendered as messages; on success
the action redirects home. -/
def createPropertyAction (currentUser : Option User) (w : World)
    (raw : PropertyFields) (file : ImageFile) : ActionOutcome Unit × World :=
  match getAuthUser currentUser with
  | .error (.thrown m) => (.thrown m, w)
  | .error (.redirect p) => (.redirect p, w)
  | .ok user =>
    match validateProperty raw with
    | .error e => (renderError e, w)
    | .ok vf =>
      match validateImage file with
      | .error e => (renderError e, w)
      | .ok vimg =>
        let up := uploadImage w vimg
        let prop : Property :=
          { id := freshId up.2, name := vf.name, tagline := vf.tagline,
            category := vf.category, image := up.1, country := vf.country,
            description := vf.description, price := vf.price,
            guests := vf.guests, bedrooms := vf.bedrooms, beds := vf.beds,
            baths := vf.baths, amenities := vf.amenities,
            profileId := user.id }
        match propertyCreate up.2.db prop with
        | .error e => (renderError e, up.2)
        | .ok db1 =>
          (ActionOutcome.redirect "/",
           { up.2 with db := db1, nextId := up.2.nextId + 1 })

/-- Case-insensitive character-list match: does hay start with pat? -/
def charsStartWith : List Char → List Char → Bool
  | [], _ => true
  | _ :: _, [] => false
  | a :: as, b :: bs => a == b && charsStartWith as bs

/-- Does pat occur as a contiguous run somewhere in hay? -/
def charsContain (pat : List Char) : List Char → Bool
  | [] => pat.isEmpty
  | b :: bs => charsStartWith pat (b :: bs) || charsContain pat bs

/-- Prisma `contains` with mode insensitive: case-insensitive substring. -/
def insContains (hay pat : String) : Bool :=
  charsContain (pat.data.map Char.toLower) (hay.data.map Char.toLower)

/-- The category part of the fetchProperties where clause: Prisma ignores
the equality filter when the value is undefined. -/
def categoryMatches (category : Option String) (p : Property) : Bool :=
  match category with
  | none => true
  | some c => p.category == c

/-- The full fetchProperties where clause: category filter AND (name
contains search OR tagline contains search), case-insensitively. -/
def propertyMatches (search : String) (category : Option String)
    (p : Property) : Bool :=
  categoryMatches category p &&
    (insContains p.name search || insContains p.tagline search)

/-- The fixed listing projection selected by fetchProperties and
fetchFavorites: id, name, tagline, country, image, price. -/
structure PropertyListItem where
  id : String
  name : String
  tagline : String
  country : String
  image : String
  price : Int
deriving DecidableEq

/-- Projection of a full property row to the listing projection. -/
def toListItem (p : Property) : PropertyListItem :=
  { id := p.id, name := p.name, tagline := p.tagline,
    country := p.country, image := p.image, price := p.price }

/-- actions.ts `fetchProperties`: unauthenticated read (the function takes
no identity); filters by category and case-insensitive search over name or
tagline, and selects only the listing projection. -/
def fetchProperties (db : DB) (search : String) (category : Option String) :
    List PropertyListItem :=
  (db.properties.filter (propertyMatches search category)).map toListItem

/-- actions.ts `fetchFavoriteId`: getAuthUser, then findFirst on
(propertyId, profileId) selecting the id; the JavaScript result expression
favorite?.id or-else null collapses an empty-string id to null. -/
def fetchFavoriteId (currentUser : Option User) (db : DB)
    (propertyId : String) : ActionOutcome (Option String) :=
  match getAuthUser currentUser with
  | .error (.thrown m) => .thrown m
  | .error (.redirect p) => .redirect p
  | .ok user =>
    match favoriteFindFirst db propertyId user.id with
    | some fav => .value (if fav.id == "" then none else some fav.id)
    | none => .value none

/-- actions.ts `toggleFavoriteAction`: getAuthUser runs before the try
block; the JavaScript truthiness test on favoriteId treats null and the
empty string alike, selecting the create branch; the delete branch deletes
by id alone.  Errors inside the try block are rendered as messages. -/
def toggleFavoriteAction (currentUser : Option User) (w : World)
    (propertyId : String) (favoriteId : Option String) (pathname : String) :
    ActionOutcome Unit × World :=
  match getAuthUser currentUser with
  | .error (.thrown m) => (.thrown m, w)
  | .error (.redirect p) => (.redirect p, w)
  | .ok user =>
    match (match favoriteId with
           | some fid => if fid == "" then none else some fid
           | none => none : Option String) with
    | some fid =>
      match favoriteDelete w.db fid with
      | .error e => (renderError e, w)
      | .ok db1 =>
        (ActionOutcome.message "Removed from Faves",
         revalidatePath { w with db := db1 } pathname)
    | none =>
      match favoriteCreate w.db
          { id := freshId w, profileId := user.id, propertyId := propertyId } with
      | .error e => (renderError e, w)
      | .ok db1 =>
        (ActionOutcome.message "Added to Faves",
         revalidatePath { w with db := db1, nextId := w.nextId + 1 } pathname)

/-- actions.ts `fetchFavorites`: getAuthUser, then the favorites of the
user joined to their properties, projected to the listing projection. -/
def fetchFavorites (currentUser : Option User) (db : DB) :
    ActionOutcome (List PropertyListItem) :=
  match getAuthUser currentUser with
  | .error (.thrown m) => .thrown m
  | .error (.redirect p) => .redirect p
  | .ok user =>
    .value ((db.favorites.filter (fun f => f.profileId == user.id)).filterMap
      (fun f => (db.properties.find? (fun p => p.id == f.propertyId)).map toListItem))

/-- actions.ts `fetchPropertyDetails`: unauthenticated findUnique of the
full property row. -/
def fetchPropertyDetails (db : DB) (id : String) : Option Property :=
  db.properties.find? (fun p => p.id == id)

/-- A country of the country table: code and display name. -/
structure Country where
  code : String
  name : String
deriving DecidableEq

/-- Modelled from the spec: `findCountryByCode` and its country table live
in src/utils/countries.ts, which is not in the tree; §4.3 describes it as
a pure lookup of a country by its code. -/
def findCountryByCode (countries : List Country) (code : String) :
    Option Country :=
  countries.find? (fun c => c.code == code)

/-- The rendered output of the CountryFlagAndName component: the code
passed to the flag element and the displayed name text. -/
structure FlagAndName where
  flagCode : String
  display : String
deriving DecidableEq

/-- CountryFlagAndName.tsx: looks the country up by code and renders its
flag and (possibly truncated) name.  The lookup result is dereferenced
with a non-null assertion; on an unknown code the component throws a
TypeError, modelled as `none`. -/
def CountryFlagAndName (countries : List Country) (countryCode : String) :
    Option FlagAndName :=
  match findCountryByCode countries countryCode with
  | none => none
  | some validCountry =>
    some { flagCode := validCountry.code,
           display :=
             if validCountry.name.length > 20 then
               validCountry.name.take 20 ++ "..."
             else validCountry.name }

/-! Concrete fixtures used by witnesses and counterexamples. -/

/-- A resolved identity that has completed onboarding. -/
def demoUser : User :=
  { id := "user-1", email := "u1@example.com", imageUrl := some "avatar-1",
    hasProfile := true }

/-- A resolved identity with the onboarding flag set but no profile row in
`demoDB`. -/
def demoUser2 : User :=
  { id := "user-2", email := "u2@example.com", imageUrl := none,
    hasProfile := true }

/-- A fresh identity that has not completed onboarding. -/
def demoNewUser : User :=
  { id := "user-3", email := "u3@example.com", imageUrl := none,
    hasProfile := false }

/-- The profile row of `demoUser`. -/
def demoProfile : Profile :=
  { id := "id-100", clerkId := "user-1", firstName := "Ada",
    lastName := "Lovelace", username := "ada", email := "u1@example.com",
    profileImage := "avatar-1" }

/-- A property row owned by `demoUser`. -/
def demoProperty : Property :=
  { id := "prop-1", name := "Pool House", tagline := "Relax by the water",
    category := "house", image := "img-1", country := "ID",
    description := "A nice place", price := 100, guests := 2, bedrooms := 1,
    beds := 1, baths := 1, amenities := "wifi", profileId := "user-1" }

/-- A store holding one profile and one property, no favorites. -/
def demoDB : DB :=
  { profiles := [demoProfile], properties := [demoProperty], favorites := [] }

/-- A world around `demoDB`. -/
def demoWorld : World :=
  { db := demoDB, hasProfileFlags := [("user-1", true)], uploads := [],
    revalidated := [], nextId := 0 }

/-- A valid profile form submission. -/
def demoRawProfile : ProfileFields :=
  { firstName := "Ada", lastName := "Lovelace", username := "ada",
    email := "u1@example.com" }

/-- A valid property form submission. -/
def demoRawProperty : PropertyFields :=
  { name := "Beach Hut", tagline := "Sea view", category := "cabin",
    country := "ID", description := "Small and cosy", price := 50,
    guests := 2, bedrooms := 1, beds := 1, baths := 1, amenities := "none" }

/-- A valid image file. -/
def demoImage : ImageFile :=
  { name := "photo.png", size := 1000, mime := "image/png" }

/-- An image file above the size ceiling. -/
def demoBigImage : ImageFile :=
  { name := "huge.png", size := maxImageSize + 1, mime := "image/png" }

/-- A two-row country table, one name over twenty characters long. -/
def demoCountries : List Country :=
  [{ code := "ID", name := "Indonesia" },
   { code := "GB", name := "United Kingdom of Great Britain" }]

/-! Theorems. -/

/-- C8: the country-flag-and-name presentation helper is a pure function:
for every country code whose lookup succeeds it renders the looked-up
country, truncating a name longer than 20 characters to its first 20
characters followed by "...", and leaving a name of 20 characters or fewer
unchanged. -/
theorem c8_flag_name_truncation (countries : List Country) (code : String)
    (c : Country) (h : findCountryByCode countries code = some c) :
    CountryFlagAndName countries code =
      some { flagCode := c.code,
             display :=
               if c.name.length > 20 then c.name.take 20 ++ "..."
               else c.name } := by
  unfold CountryFlagAndName
  rw [h]

/-- C8 witness: both truncation branches evaluated on the demo table. -/
theorem c8_flag_name_truncation_witness :
    CountryFlagAndName demoCountries "GB" =
      some { flagCode := "GB", display := "United Kingdom of Gr..." } ∧
    CountryFlagAndName demoCountries "ID" =
      some { flagCode := "ID", display := "Indonesia" } :=
  ⟨(c8_flag_name_truncation demoCountries "GB"
      { code := "GB", name := "United Kingdom of Great Britain" }
      (by decide)).trans (by decide),
   (c8_flag_name_truncation demoCountries "ID"
      { code := "ID", name := "Indonesia" } (by decide)).trans (by decide)⟩

/-- C10: rendering the country flag and name is total only when the code
exists in the table: an unknown code makes the component throw (modelled
as `none`), while a known code renders. -/
theorem c10_unknown_code_throws (countries : List Country) (code : String) :
    (findCountryByCode countries code = none →
      CountryFlagAndName countries code = none) ∧
    (∀ c, findCountryByCode countries code = some c →
      (CountryFlagAndName countries code).isSome = true) := by
  constructor
  · intro h
    unfold CountryFlagAndName
    rw [h]
  · intro c h
    unfold CountryFlagAndName
    rw [h]
    rfl

/-- C10 witness: an unknown code on the demo table renders nothing. -/
theorem c10_unknown_code_throws_witness :
    CountryFlagAndName demoCountries "ZZ" = none :=
  (c10_unknown_code_throws demoCountries "ZZ").1 (by decide)

/-- C4 counterexample: with no resolved identity, fetchProfileImage
returns the value null instead of failing with an authorization error, and
with a resolved identity that has no profile row it returns an absent
value instead of redirecting to onboarding. -/
theorem c4_counterexample :
    fetchProfileImage none demoDB = ActionOutcome.value none ∧
    (fetchProfileImage none demoDB).isThrown = false ∧
    fetchProfileImage (some demoUser2) demoDB = ActionOutcome.value none ∧
    (fetchProfileImage (some demoUser2) demoDB).isRedirect = false := by
  refine ⟨rfl, rfl, by decide, by decide⟩

/-- C4 amended: fetchProfile requires a resolved identity (throwing the
authorization error when none), redirects to onboarding when the identity
lacks the onboarding flag or the profile row, and returns the row
otherwise; fetchProfileImage never fails and never redirects: it returns
null when no identity is resolved and the (possibly absent) stored image
otherwise.  Both operations only read the store. -/
theorem c4_amended_fetch_reads (u : User) (db : DB) :
    (fetchProfile none db =
      ActionOutcome.thrown "You must be logged in to access this route") ∧
    (u.hasProfile = false →
      fetchProfile (some u) db = ActionOutcome.redirect "/profile/create") ∧
    (u.hasProfile = true → profileFindUnique db u.id = none →
      fetchProfile (some u) db = ActionOutcome.redirect "/profile/create") ∧
    (∀ p, u.hasProfile = true → profileFindUnique db u.id = some p →
      fetchProfile (some u) db = ActionOutcome.value p) ∧
    (fetchProfileImage none db = ActionOutcome.value none) ∧
    (fetchProfileImage (some u) db =
      ActionOutcome.value ((profileFindUnique db u.id).map Profile.profileImage)) := by
  refine ⟨rfl, ?_, ?_, ?_, rfl, rfl⟩
  · intro h
    simp [fetchProfile, getAuthUser, h]
  · intro h hf
    simp [fetchProfile, getAuthUser, h, hf]
  · intro p h hf
    simp [fetchProfile, getAuthUser, h, hf]

/-- C4 witness: the amended theorem applied to an identity with the flag
set but no profile row. -/
theorem c4_amended_fetch_reads_witness :
    fetchProfile (some demoUser2) demoDB =
      ActionOutcome.redirect "/profile/create" :=
  (c4_amended_fetch_reads demoUser2 demoDB).2.2.1 rfl (by decide)

/-- Matching the empty pattern always succeeds. -/
theorem charsContain_nil (l : List Char) : charsContain [] l = true := by
  induction l with
  | nil => rfl
  | cons b bs ih => simp [charsContain, charsStartWith]

/-- The empty search string matches every row. -/
theorem insContains_empty (s : String) : insContains s "" = true :=
  charsContain_nil (s.data.map Char.toLower)

/-- C5: every row returned by the property search contains the search
string case-insensitively in its name or tagline, and the empty search
string returns exactly the rows matching the category filter, projected to
the fixed listing projection. -/
theorem c5_search_semantics :
    (∀ (db : DB) (search : String) (category : Option String)
        (r : PropertyListItem), r ∈ fetchProperties db search category →
        (insContains r.name search = true ∨ insContains r.tagline search = true)) ∧
    (∀ (db : DB) (category : Option String),
        fetchProperties db "" category =
          (db.properties.filter (categoryMatches category)).map toListItem) := by
  constructor
  · intro db search category r hr
    simp only [fetchProperties, List.mem_map] at hr
    obtain ⟨p, hp, rfl⟩ := hr
    rw [List.mem_filter] at hp
    have h2 := hp.2
    simp only [propertyMatches, Bool.and_eq_true, Bool.or_eq_true] at h2
    exact h2.2
  · intro db category
    unfold fetchProperties
    congr 1
    apply List.filter_congr
    intro p _
    simp [propertyMatches, insContains_empty]

/-- C5 witness: the demo property is returned by a search for "pool" and
does contain it case-insensitively. -/
theorem c5_search_semantics_witness :
    toListItem demoProperty ∈ fetchProperties demoDB "pool" none ∧
    (insContains (toListItem demoProperty).name "pool" = true ∨
     insContains (toListItem demoProperty).tagline "pool" = true) :=
  ⟨by decide,
   c5_search_semantics.1 demoDB "pool" none (toListItem demoProperty) (by decide)⟩

/-- Generated row ids are never the empty string. -/
theorem freshId_ne_empty (w : World) : freshId w ≠ "" := by
  intro h
  have hd := congrArg String.data h
  simp [freshId, String.data_append] at hd

/-- Reduction of the create branch of toggleFavoriteAction: with an
onboarded identity, a null favorite id, and satisfied foreign keys, the
action appends one favorite row, invalidates the path, bumps the id
counter and reports the addition. -/
theorem toggleFavoriteAction_create_eq (u : User) (w : World)
    (pid path : String)
    (hu : u.hasProfile = true)
    (hprofile : w.db.profiles.any (fun q => q.clerkId == u.id) = true)
    (hprop : w.db.properties.any (fun p => p.id == pid) = true) :
    toggleFavoriteAction (some u) w pid none path =
      (ActionOutcome.message "Added to Faves",
       { db := { profiles := w.db.profiles, properties := w.db.properties,
                 favorites := w.db.favorites ++
                   [{ id := freshId w, profileId := u.id, propertyId := pid }] },
         hasProfileFlags := w.hasProfileFlags,
         uploads := w.uploads,
         revalidated := path :: w.revalidated,
         nextId := w.nextId + 1 }) := by
  simp [toggleFavoriteAction, getAuthUser, hu, favoriteCreate, hprofile,
    hprop, revalidatePath]

/-- Reduction of the delete branch of toggleFavoriteAction: with an
onboarded identity and a non-empty favorite id possessed by some row, the
action removes the rows with that id, invalidates the path and reports
the removal.  The row's owner is never consulted. -/
theorem toggleFavoriteAction_delete_eq (u : User) (w : World)
    (pid fid path : String)
    (hu : u.hasProfile = true)
    (hfid : (fid == "") = false)
    (hany : w.db.favorites.any (fun f => f.id == fid) = true) :
    toggleFavoriteAction (some u) w pid (some fid) path =
      (ActionOutcome.message "Removed from Faves",
       { db := { profiles := w.db.profiles, properties := w.db.properties,
                 favorites := w.db.favorites.filter (fun f => f.id != fid) },
         hasProfileFlags := w.hasProfileFlags,
         uploads := w.uploads,
         revalidated := path :: w.revalidated,
         nextId := w.nextId }) := by
  simp [toggleFavoriteAction, getAuthUser, hu, hfid, favoriteDelete, hany,
    revalidatePath]

/-- C9: toggle-favorite with a supplied favorite id deletes by that id
alone: no check relates the row's profileId to the calling identity, so
the favorite of a different profile is deleted and reported removed. -/
theorem c9_cross_profile_delete (u : User) (w : World) (victim : Favorite)
    (path : String)
    (hu : u.hasProfile = true)
    (hmem : victim ∈ w.db.favorites)
    (hid : victim.id ≠ "")
    (_howner : victim.profileId ≠ u.id) :
    (toggleFavoriteAction (some u) w victim.propertyId (some victim.id) path).1 =
      ActionOutcome.message "Removed from Faves" ∧
    victim ∉
      (toggleFavoriteAction (some u) w victim.propertyId (some victim.id) path).2.db.favorites := by
  have hid' : (victim.id == "") = false := beq_eq_false_iff_ne.mpr hid
  have hany : w.db.favorites.any (fun f => f.id == victim.id) = true :=
    List.any_eq_true.mpr ⟨victim, hmem, beq_self_eq_true _⟩
  rw [toggleFavoriteAction_delete_eq u w victim.propertyId victim.id path
    hu hid' hany]
  refine ⟨rfl, ?_⟩
  simp [List.mem_filter]

/-- A world holding one favorite owned by user-2 on the demo property. -/
def demoWorldOtherFav : World :=
  { db := { profiles := [demoProfile], properties := [demoProperty],
            favorites := [{ id := "fav-9", profileId := "user-2",
                            propertyId := "prop-1" }] },
    hasProfileFlags := [("user-1", true)], uploads := [], revalidated := [],
    nextId := 5 }

/-- C9 witness: user-1 deletes the favorite owned by user-2 by its id. -/
theorem c9_cross_profile_delete_witness :
    (toggleFavoriteAction (some demoUser) demoWorldOtherFav "prop-1"
      (some "fav-9") "/p").1 = ActionOutcome.message "Removed from Faves" ∧
    ({ id := "fav-9", profileId := "user-2", propertyId := "prop-1" } :
        Favorite) ∉
      (toggleFavoriteAction (some demoUser) demoWorldOtherFav "prop-1"
        (some "fav-9") "/p").2.db.favorites :=
  c9_cross_profile_delete demoUser demoWorldOtherFav
    { id := "fav-9", profileId := "user-2", propertyId := "prop-1" } "/p"
    rfl (by decide) (by decide) (by decide)

/-- C3: with an authenticated onboarded identity, an existing profile row,
an existing property, no prior favorite for the pair and a fresh generated
id, toggling with null creates exactly one favorite row for the pair and
reports it added; toggling again with that row's id deletes exactly that
row and reports it removed, restoring the favorites relation exactly. -/
theorem c3_toggle_round_trip (u : User) (w : World) (pid path1 path2 : String)
    (hu : u.hasProfile = true)
    (hprofile : w.db.profiles.any (fun q => q.clerkId == u.id) = true)
    (hprop : w.db.properties.any (fun p => p.id == pid) = true)
    (hzero : favoritePairCount w.db u.id pid = 0)
    (hfresh : ∀ f ∈ w.db.favorites, f.id ≠ freshId w) :
    (toggleFavoriteAction (some u) w pid none path1).1 =
      ActionOutcome.message "Added to Faves" ∧
    favoritePairCount (toggleFavoriteAction (some u) w pid none path1).2.db
      u.id pid = 1 ∧
    (toggleFavoriteAction (some u)
      (toggleFavoriteAction (some u) w pid none path1).2 pid
      (some (freshId w)) path2).1 = ActionOutcome.message "Removed from Faves" ∧
    (toggleFavoriteAction (some u)
      (toggleFavoriteAction (some u) w pid none path1).2 pid
      (some (freshId w)) path2).2.db.favorites = w.db.favorites ∧
    favoritePairCount
      (toggleFavoriteAction (some u)
        (toggleFavoriteAction (some u) w pid none path1).2 pid
        (some (freshId w)) path2).2.db u.id pid = 0 := by
  rw [toggleFavoriteAction_create_eq u w pid path1 hu hprofile hprop]
  have hcount1 : favoritePairCount
      { profiles := w.db.profiles, properties := w.db.properties,
        favorites := w.db.favorites ++
          [{ id := freshId w, profileId := u.id, propertyId := pid }] }
      u.id pid = 1 := by
    unfold favoritePairCount at hzero ⊢
    rw [List.filter_append, List.length_append, hzero]
    simp
  have hid' : (freshId w == "") = false :=
    beq_eq_false_iff_ne.mpr (freshId_ne_empty w)
  rw [toggleFavoriteAction_delete_eq u _ pid (freshId w) path2 hu hid'
    (by rw [List.any_append]; simp)]
  have h1 : w.db.favorites.filter (fun f => f.id != freshId w) =
      w.db.favorites :=
    List.filter_eq_self.mpr (fun f hf => by
      simpa using bne_iff_ne.mpr (hfresh f hf))
  have h2 : List.filter (fun f => f.id != freshId w)
      [(⟨freshId w, u.id, pid⟩ : Favorite)] = [] := by
    simp
  have hclean : (w.db.favorites ++
      [(⟨freshId w, u.id, pid⟩ : Favorite)]).filter
        (fun f => f.id != freshId w) = w.db.favorites := by
    rw [List.filter_append, h1, h2, List.append_nil]
  have hfinal : favoritePairCount
      { profiles := w.db.profiles, properties := w.db.properties,
        favorites := (w.db.favorites ++
          [(⟨freshId w, u.id, pid⟩ : Favorite)]).filter
            (fun f => f.id != freshId w) } u.id pid =
      favoritePairCount w.db u.id pid := by
    unfold favoritePairCount
    rw [hclean]
  exact ⟨rfl, hcount1, rfl, hclean, hfinal.trans hzero⟩

/-- C3 witness: the round trip on the demo world. -/
theorem c3_toggle_round_trip_witness :
    (toggleFavoriteAction (some demoUser) demoWorld "prop-1" none "/a").1 =
      ActionOutcome.message "Added to Faves" ∧
    favoritePairCount
      (toggleFavoriteAction (some demoUser) demoWorld "prop-1" none "/a").2.db
      "user-1" "prop-1" = 1 ∧
    (toggleFavoriteAction (some demoUser)
      (toggleFavoriteAction (some demoUser) demoWorld "prop-1" none "/a").2
      "prop-1" (some (freshId demoWorld)) "/b").1 =
      ActionOutcome.message "Removed from Faves" ∧
    (toggleFavoriteAction (some demoUser)
      (toggleFavoriteAction (some demoUser) demoWorld "prop-1" none "/a").2
      "prop-1" (some (freshId demoWorld)) "/b").2.db.favorites =
      demoWorld.db.favorites ∧
    favoritePairCount
      (toggleFavoriteAction (some demoUser)
        (toggleFavoriteAction (some demoUser) demoWorld "prop-1" none "/a").2
        "prop-1" (some (freshId demoWorld)) "/b").2.db "user-1" "prop-1" = 0 := by
  have h := c3_toggle_round_trip demoUser demoWorld "prop-1" "/a" "/b"
    rfl (by decide) (by decide) (by decide) (by simp [demoWorld, demoDB])
  exact h

/-- C2 counterexample: toggle-favorite performs no existence check of its
own — two successive toggle calls by the same identity on the same
property, each passing a null favorite id, leave two Favorite rows for the
pair, so the at-most-one invariant fails even for a sequential sequence of
toggle calls. -/
theorem c2_counterexample :
    favoritePairCount
      (toggleFavoriteAction (some demoUser)
        (toggleFavoriteAction (some demoUser) demoWorld "prop-1" none "/p").2
        "prop-1" none "/p").2.db "user-1" "prop-1" = 2 := by
  decide

/-- C2 amended: the schema indeed has no composite uniqueness constraint
and toggle-favorite itself checks nothing; the at-most-one-Favorite
invariant is preserved only by toggle calls whose favorite-id argument is
the pair's current id as fetch-favorite-id reports it.  For such a call,
a pair with at most one row still has at most one row afterwards
(assuming, as the store guarantees, non-empty row ids). -/
theorem c2_amended_toggle_invariant (u : User) (w : World)
    (pid path : String) (fid : Option String)
    (hu : u.hasProfile = true)
    (hids : ∀ f ∈ w.db.favorites, f.id ≠ "")
    (hcount : favoritePairCount w.db u.id pid ≤ 1)
    (hfid : fetchFavoriteId (some u) w.db pid = ActionOutcome.value fid) :
    favoritePairCount
      (toggleFavoriteAction (some u) w pid fid path).2.db u.id pid ≤ 1 := by
  cases hff : favoriteFindFirst w.db pid u.id with
  | none =>
    have hfid' : fid = none := by
      simp [fetchFavoriteId, getAuthUser, hu, hff] at hfid
      exact hfid.symm
    subst hfid'
    have hzero : favoritePairCount w.db u.id pid = 0 := by
      unfold favoritePairCount
      rw [List.length_eq_zero, List.filter_eq_nil_iff]
      intro f hf
      have hnot := List.find?_eq_none.mp hff f hf
      simp only [Bool.and_eq_true, beq_iff_eq] at hnot ⊢
      tauto
    cases hc : favoriteCreate w.db
        { id := freshId w, profileId := u.id, propertyId := pid } with
    | error e =>
      have : (toggleFavoriteAction (some u) w pid none path).2 = w := by
        simp [toggleFavoriteAction, getAuthUser, hu, hc, renderError]
      rw [this, hzero]
      omega
    | ok db1 =>
      have hdb1 : db1 =
          { profiles := w.db.profiles, properties := w.db.properties,
            favorites := w.db.favorites ++
              [(⟨freshId w, u.id, pid⟩ : Favorite)] } := by
        unfold favoriteCreate at hc
        split at hc
        · split at hc
          · injection hc with h
            exact h.symm
          · simp at hc
        · simp at hc
      have hstep : (toggleFavoriteAction (some u) w pid none path).2.db = db1 := by
        simp [toggleFavoriteAction, getAuthUser, hu, hc, revalidatePath]
      rw [hstep, hdb1]
      unfold favoritePairCount at hzero ⊢
      rw [List.filter_append, List.length_append, hzero]
      simp
  | some fav =>
    have hmem : fav ∈ w.db.favorites := List.mem_of_find?_eq_some hff
    have hne : fav.id ≠ "" := hids fav hmem
    have hne' : (fav.id == "") = false := beq_eq_false_iff_ne.mpr hne
    have hfid' : fid = some fav.id := by
      simp [fetchFavoriteId, getAuthUser, hu, hff, hne'] at hfid
      exact hfid.symm
    subst hfid'
    have hany : w.db.favorites.any (fun f => f.id == fav.id) = true :=
      List.any_eq_true.mpr ⟨fav, hmem, beq_self_eq_true _⟩
    rw [toggleFavoriteAction_delete_eq u w pid fav.id path hu hne' hany]
    refine le_trans ?_ hcount
    unfold favoritePairCount
    exact ((List.filter_sublist w.db.favorites).filter _).length_le

/-- C2 amended witness: a protocol-following toggle on the demo world. -/
theorem c2_amended_toggle_invariant_witness :
    favoritePairCount
      (toggleFavoriteAction (some demoUser) demoWorld "prop-1" none "/p").2.db
      "user-1" "prop-1" ≤ 1 :=
  c2_amended_toggle_invariant demoUser demoWorld "prop-1" "/p" none
    rfl (by simp [demoWorld, demoDB]) (by decide) (by decide)

/-- C6: when the submitted image fails validation, the profile-image
update returns the validation message with the world unchanged (so no
upload call was recorded and no database write occurred), and property
creation likewise returns a validation message with the world unchanged. -/
theorem c6_no_upload_on_invalid_image (u : User) (w : World)
    (img : ImageFile) (raw : PropertyFields) (e : String)
    (hu : u.hasProfile = true) :
    (validateImage img = .error e →
      updateProfileImageAction (some u) w img = (ActionOutcome.message e, w)) ∧
    (validateImage img = .error e →
      ∃ m, createPropertyAction (some u) w raw img =
        (ActionOutcome.message m, w)) := by
  constructor
  · intro hv
    simp [updateProfileImageAction, getAuthUser, hu, hv, renderError]
  · intro hv
    cases hp : validateProperty raw with
    | error m =>
      exact ⟨m, by simp [createPropertyAction, getAuthUser, hu, hp, renderError]⟩
    | ok vf =>
      exact ⟨e, by simp [createPropertyAction, getAuthUser, hu, hp, hv, renderError]⟩

/-- C6 witness: an over-sized file is rejected by both operations with the
world unchanged. -/
theorem c6_no_upload_on_invalid_image_witness :
    updateProfileImageAction (some demoUser) demoWorld demoBigImage =
      (ActionOutcome.message "File size must be less than 1MB", demoWorld) ∧
    (∃ m, createPropertyAction (some demoUser) demoWorld demoRawProperty
      demoBigImage = (ActionOutcome.message m, demoWorld)) :=
  ⟨(c6_no_upload_on_invalid_image demoUser demoWorld demoBigImage
      demoRawProperty "File size must be less than 1MB" rfl).1 rfl,
   (c6_no_upload_on_invalid_image demoUser demoWorld demoBigImage
      demoRawProperty "File size must be less than 1MB" rfl).2 rfl⟩

/-- C7: a valid profile creation by a resolved identity with no existing
profile row persists a profile keyed by the identity's id, sets the
identity's onboarding flag in the external store, and redirects home;
with no resolved identity the operation instead returns an error
message. -/
theorem c7_create_profile (u : User) (w : World) (raw vf : ProfileFields)
    (hval : validateProfile raw = .ok vf)
    (hnew : w.db.profiles.all (fun q => q.clerkId != u.id) = true) :
    ((createProfileAction (some u) w raw).1 = ActionOutcome.redirect "/" ∧
     profileFindUnique (createProfileAction (some u) w raw).2.db u.id =
       some { id := freshId w, clerkId := u.id, firstName := vf.firstName,
              lastName := vf.lastName, username := vf.username,
              email := vf.email, profileImage := u.imageUrl.getD "" } ∧
     getProfileFlag (createProfileAction (some u) w raw).2 u.id = true) ∧
    createProfileAction none w raw =
      (ActionOutcome.message "Please login to create a profile", w) := by
  have hany : w.db.profiles.any (fun q => q.clerkId == u.id) = false := by
    rw [List.any_eq_false]
    intro q hq
    have := List.all_eq_true.mp hnew q hq
    simpa using this
  have hcreate : profileCreate w.db
      { id := freshId w, clerkId := u.id, firstName := vf.firstName,
        lastName := vf.lastName, username := vf.username, email := vf.email,
        profileImage := u.imageUrl.getD "" } =
      .ok { profiles := w.db.profiles ++
              [{ id := freshId w, clerkId := u.id, firstName := vf.firstName,
                 lastName := vf.lastName, username := vf.username,
                 email := vf.email, profileImage := u.imageUrl.getD "" }],
            properties := w.db.properties, favorites := w.db.favorites } := by
    unfold profileCreate
    rw [hany]
    simp
  have hnone : w.db.profiles.find? (fun p => p.clerkId == u.id) = none := by
    rw [List.find?_eq_none]
    intro p hp
    have := List.all_eq_true.mp hnew p hp
    simpa using this
  refine ⟨⟨?_, ?_, ?_⟩, ?_⟩
  · simp [createProfileAction, hval, hcreate]
  · simp [createProfileAction, hval, hcreate, updateUserMetadata,
      profileFindUnique, List.find?_append, hnone]
  · simp [createProfileAction, hval, hcreate, updateUserMetadata,
      getProfileFlag]
  · simp [createProfileAction, renderError]

/-- C7 witness: a fresh identity creates its profile on the demo world. -/
theorem c7_create_profile_witness :
    (createProfileAction (some demoNewUser) demoWorld demoRawProfile).1 =
      ActionOutcome.redirect "/" ∧
    profileFindUnique
      (createProfileAction (some demoNewUser) demoWorld demoRawProfile).2.db
      "user-3" =
      some { id := freshId demoWorld, clerkId := "user-3", firstName := "Ada",
             lastName := "Lovelace", username := "ada",
             email := "u1@example.com", profileImage := "" } ∧
    getProfileFlag
      (createProfileAction (some demoNewUser) demoWorld demoRawProfile).2
      "user-3" = true :=
  (c7_create_profile demoNewUser demoWorld demoRawProfile demoRawProfile
    rfl (by decide)).1

/-- createProfileAction resolves the identity inside its try block, so no
exception escapes it for any input. -/
theorem createProfileAction_not_thrown (cu : Option User) (w : World)
    (raw : ProfileFields) :
    (createProfileAction cu w raw).1.isThrown = false := by
  cases cu with
  | none => simp [createProfileAction, renderError, ActionOutcome.isThrown]
  | some u =>
    cases hv : validateProfile raw with
    | error e =>
      simp [createProfileAction, hv, renderError, ActionOutcome.isThrown]
    | ok vf =>
      cases hc : profileCreate w.db
          { id := freshId w, clerkId := u.id, firstName := vf.firstName,
            lastName := vf.lastName, username := vf.username,
            email := vf.email, profileImage := u.imageUrl.getD "" } with
      | error e =>
        simp [createProfileAction, hv, hc, renderError, ActionOutcome.isThrown]
      | ok db1 =>
        simp [createProfileAction, hv, hc, ActionOutcome.isThrown]

/-- With a resolved identity, updateProfileAction lets no exception
escape: everything after identity resolution sits in the try block. -/
theorem updateProfileAction_not_thrown (u : User) (w : World)
    (raw : ProfileFields) :
    (updateProfileAction (some u) w raw).1.isThrown = false := by
  cases hu : u.hasProfile with
  | false => simp [updateProfileAction, getAuthUser, hu, ActionOutcome.isThrown]
  | true =>
    cases hv : validateProfile raw with
    | error e =>
      simp [updateProfileAction, getAuthUser, hu, hv, renderError,
        ActionOutcome.isThrown]
    | ok vf =>
      cases hup : profileUpdate w.db u.id vf with
      | error e =>
        simp [updateProfileAction, getAuthUser, hu, hv, hup, renderError,
          ActionOutcome.isThrown]
      | ok db1 =>
        simp [updateProfileAction, getAuthUser, hu, hv, hup,
          ActionOutcome.isThrown]

/-- With a resolved identity, updateProfileImageAction lets no exception
escape. -/
theorem updateProfileImageAction_not_thrown (u : User) (w : World)
    (img : ImageFile) :
    (updateProfileImageAction (some u) w img).1.isThrown = false := by
  cases hu : u.hasProfile with
  | false =>
    simp [updateProfileImageAction, getAuthUser, hu, ActionOutcome.isThrown]
  | true =>
    cases hv : validateImage img with
    | error e =>
      simp [updateProfileImageAction, getAuthUser, hu, hv, renderError,
        ActionOutcome.isThrown]
    | ok vimg =>
      cases hup : profileUpdateImage (uploadImage w vimg).2.db u.id
          (uploadImage w vimg).1 with
      | error e =>
        simp [updateProfileImageAction, getAuthUser, hu, hv, hup, renderError,
          ActionOutcome.isThrown]
      | ok db1 =>
        simp [updateProfileImageAction, getAuthUser, hu, hv, hup,
          ActionOutcome.isThrown]

/-- With a resolved identity, createPropertyAction lets no exception
escape. -/
theorem createPropertyAction_not_thrown (u : User) (w : World)
    (raw : PropertyFields) (file : ImageFile) :
    (createPropertyAction (some u) w raw file).1.isThrown = false := by
  cases hu : u.hasProfile with
  | false =>
    simp [createPropertyAction, getAuthUser, hu, ActionOutcome.isThrown]
  | true =>
    cases hv : validateProperty raw with
    | error e =>
      simp [createPropertyAction, getAuthUser, hu, hv, renderError,
        ActionOutcome.isThrown]
    | ok vf =>
      cases hw : validateImage file with
      | error e =>
        simp [createPropertyAction, getAuthUser, hu, hv, hw, renderError,
          ActionOutcome.isThrown]
      | ok vimg =>
        cases hc : propertyCreate (uploadImage w vimg).2.db
            { id := freshId (uploadImage w vimg).2, name := vf.name,
              tagline := vf.tagline, category := vf.category,
              image := (uploadImage w vimg).1, country := vf.country,
              description := vf.description, price := vf.price,
              guests := vf.guests, bedrooms := vf.bedrooms, beds := vf.beds,
              baths := vf.baths, amenities := vf.amenities,
              profileId := u.id } with
        | error e =>
          simp [createPropertyAction, getAuthUser, hu, hv, hw, hc,
            renderError, ActionOutcome.isThrown]
        | ok db1 =>
          simp [createPropertyAction, getAuthUser, hu, hv, hw, hc,
            ActionOutcome.isThrown]

/-- With a resolved identity, toggleFavoriteAction lets no exception
escape. -/
theorem toggleFavoriteAction_not_thrown (u : User) (w : World)
    (pid : String) (fid : Option String) (path : String) :
    (toggleFavoriteAction (some u) w pid fid path).1.isThrown = false := by
  cases hu : u.hasProfile with
  | false =>
    simp [toggleFavoriteAction, getAuthUser, hu, ActionOutcome.isThrown]
  | true =>
    have hcreate : ∀ f, ((match favoriteCreate w.db f with
        | .error e => ((renderError e : ActionOutcome Unit), w)
        | .ok db1 =>
          (ActionOutcome.message "Added to Faves",
           revalidatePath { w with db := db1, nextId := w.nextId + 1 }
             path)).1).isThrown = false := by
      intro f
      cases hc : favoriteCreate w.db f with
      | error e => simp [hc, renderError, ActionOutcome.isThrown]
      | ok db1 => simp [hc, ActionOutcome.isThrown]
    cases fid with
    | none =>
      simpa [toggleFavoriteAction, getAuthUser, hu] using
        hcreate { id := freshId w, profileId := u.id, propertyId := pid }
    | some f =>
      cases hf : f == "" with
      | true =>
        simpa [toggleFavoriteAction, getAuthUser, hu, hf] using
          hcreate { id := freshId w, profileId := u.id, propertyId := pid }
      | false =>
        cases hd : favoriteDelete w.db f with
        | error e =>
          simp [toggleFavoriteAction, getAuthUser, hu, hf, hd, renderError,
            ActionOutcome.isThrown]
        | ok db1 =>
          simp [toggleFavoriteAction, getAuthUser, hu, hf, hd,
            ActionOutcome.isThrown]

/-- With a resolved identity, fetchProfile lets no exception escape. -/
theorem fetchProfile_not_thrown (u : User) (db : DB) :
    (fetchProfile (some u) db).isThrown = false := by
  cases hu : u.hasProfile with
  | false => simp [fetchProfile, getAuthUser, hu, ActionOutcome.isThrown]
  | true =>
    cases hp : profileFindUnique db u.id with
    | none => simp [fetchProfile, getAuthUser, hu, hp, ActionOutcome.isThrown]
    | some p => simp [fetchProfile, getAuthUser, hu, hp, ActionOutcome.isThrown]

/-- With a resolved identity, fetchFavoriteId lets no exception escape. -/
theorem fetchFavoriteId_not_thrown (u : User) (db : DB) (pid : String) :
    (fetchFavoriteId (some u) db pid).isThrown = false := by
  cases hu : u.hasProfile with
  | false => simp [fetchFavoriteId, getAuthUser, hu, ActionOutcome.isThrown]
  | true =>
    cases hp : favoriteFindFirst db pid u.id with
    | none =>
      simp [fetchFavoriteId, getAuthUser, hu, hp, ActionOutcome.isThrown]
    | some f =>
      simp [fetchFavoriteId, getAuthUser, hu, hp, ActionOutcome.isThrown]

/-- With a resolved identity, fetchFavorites lets no exception escape. -/
theorem fetchFavorites_not_thrown (u : User) (db : DB) :
    (fetchFavorites (some u) db).isThrown = false := by
  cases hu : u.hasProfile with
  | false => simp [fetchFavorites, getAuthUser, hu, ActionOutcome.isThrown]
  | true => simp [fetchFavorites, getAuthUser, hu, ActionOutcome.isThrown]

/-- C1 counterexample: updateProfileAction with no resolved identity lets
the authorization error escape as an exception instead of returning a
uniform message result, because getAuthUser runs before the try block. -/
theorem c1_counterexample :
    (updateProfileAction none demoWorld demoRawProfile).1 =
      ActionOutcome.thrown "You must be logged in to access this route" ∧
    (updateProfileAction none demoWorld demoRawProfile).1.isMessage = false :=
  ⟨rfl, rfl⟩

/-- C1 amended: every error raised inside an operation's try block is
caught and rendered as a uniform message (with redirects the only other
control transfer), but the identity-resolution step is inside the try
block only in create-profile; in update-profile, update-profile-image,
create-property, toggle-favorite, fetch-profile, fetch-favorite-id and
fetch-favorites it runs before (or without) any try block, so exactly the
no-identity authorization error escapes as a thrown exception;
fetch-profile-image resolves the identity without throwing at all. -/
theorem c1_amended_propagation :
    (∀ (cu : Option User) (w : World) (raw : ProfileFields),
       (createProfileAction cu w raw).1.isThrown = false) ∧
    (∀ (cu : Option User) (w : World) (raw : ProfileFields),
       ((updateProfileAction cu w raw).1.isThrown = true ↔ cu = none)) ∧
    (∀ (cu : Option User) (w : World) (img : ImageFile),
       ((updateProfileImageAction cu w img).1.isThrown = true ↔ cu = none)) ∧
    (∀ (cu : Option User) (w : World) (raw : PropertyFields)
       (file : ImageFile),
       ((createPropertyAction cu w raw file).1.isThrown = true ↔ cu = none)) ∧
    (∀ (cu : Option User) (w : World) (pid : String) (fid : Option String)
       (path : String),
       ((toggleFavoriteAction cu w pid fid path).1.isThrown = true ↔
         cu = none)) ∧
    (∀ (cu : Option User) (db : DB),
       ((fetchProfile cu db).isThrown = true ↔ cu = none)) ∧
    (∀ (cu : Option User) (db : DB) (pid : String),
       ((fetchFavoriteId cu db pid).isThrown = true ↔ cu = none)) ∧
    (∀ (cu : Option User) (db : DB),
       ((fetchFavorites cu db).isThrown = true ↔ cu = none)) ∧
    (∀ (cu : Option User) (db : DB),
       (fetchProfileImage cu db).isThrown = false) := by
  refine ⟨createProfileAction_not_thrown, ?_, ?_, ?_, ?_, ?_, ?_, ?_, ?_⟩
  · intro cu w raw
    cases cu with
    | none => simp [updateProfileAction, getAuthUser, ActionOutcome.isThrown]
    | some u => simp [updateProfileAction_not_thrown u w raw]
  · intro cu w img
    cases cu with
    | none =>
      simp [updateProfileImageAction, getAuthUser, ActionOutcome.isThrown]
    | some u => simp [updateProfileImageAction_not_thrown u w img]
  · intro cu w raw file
    cases cu with
    | none => simp [createPropertyAction, getAuthUser, ActionOutcome.isThrown]
    | some u => simp [createPropertyAction_not_thrown u w raw file]
  · intro cu w pid fid path
    cases cu with
    | none => simp [toggleFavoriteAction, getAuthUser, ActionOutcome.isThrown]
    | some u => simp [toggleFavoriteAction_not_thrown u w pid fid path]
  · intro cu db
    cases cu with
    | none => simp [fetchProfile, getAuthUser, ActionOutcome.isThrown]
    | some u => simp [fetchProfile_not_thrown u db]
  · intro cu db pid
    cases cu with
    | none => simp [fetchFavoriteId, getAuthUser, ActionOutcome.isThrown]
    | some u => simp [fetchFavoriteId_not_thrown u db pid]
  · intro cu db
    cases cu with
    | none => simp [fetchFavorites, getAuthUser, ActionOutcome.isThrown]
    | some u => simp [fetchFavorites_not_thrown u db]
  · intro cu db
    cases cu with
    | none => simp [fetchProfileImage, ActionOutcome.isThrown]
    | some u => simp [fetchProfileImage, ActionOutcome.isThrown]

/-- C1 amended witness: the propagation characterization applied to a
concrete no-identity call. -/
theorem c1_amended_propagation_witness :
    (updateProfileAction none demoWorld demoRawProfile).1.isThrown = true :=
  (c1_amended_propagation.2.1 none demoWorld demoRawProfile).mpr rfl

end HomeAway
